import Mathlib

/-!
Shallow embedding of the Treblle Traefik WASM middleware
(crates treblle-wasm-plugin and rust-http-wasm) and proofs about it.

Conventions of the embedding:
* `serde_json::Value` is the inductive `Json` below; objects are ordered
  association lists, as iterated by the Rust code.
* A compiled `regex::Regex` is abstracted by its match function
  `String → Bool`; a failed `Regex::new` is `Option.none`.
* Machine integers (`usize` counters) are `Nat` with explicit `% 2 ^ 32`
  (the plugin targets 32-bit wasm).
* Fallible Rust code returns `Except String α`; a Rust panic (`expect`,
  remainder by zero) is `Option.none` at the level of the panicking call.
* `HashMap<String, String>` header maps are association lists queried by
  exact key, mirroring `HashMap::get`.
-/

namespace Treblle

/-- Model of `serde_json::Value`. -/
inductive Json where
  | null
  | bool (b : Bool)
  | num (n : Int)
  | str (s : String)
  | arr (items : List Json)
  | obj (fields : List (String × Json))
deriving Repr

mutual

/-- Model of `mask_sensitive_data` (rust-http-wasm/src/utils.rs, lines 109-135),
with the compiled regex abstracted as the match predicate `re`.  Matching object
keys get the literal mask `"*****"` and are not recursed into; non-matching keys
recurse; arrays map element-wise; scalars are cloned unchanged. -/
def mask_sensitive_data (re : String → Bool) : Json → Json
  | .null => .null
  | .bool b => .bool b
  | .num n => .num n
  | .str s => .str s
  | .arr items => .arr (maskDataList re items)
  | .obj fields => .obj (maskDataFields re fields)

def maskDataList (re : String → Bool) : List Json → List Json
  | [] => []
  | v :: rest => mask_sensitive_data re v :: maskDataList re rest

def maskDataFields (re : String → Bool) : List (String × Json) → List (String × Json)
  | [] => []
  | (k, v) :: rest =>
    (if re k then (k, Json.str "*****") else (k, mask_sensitive_data re v)) ::
      maskDataFields re rest

end

/-- Model of `mask_sensitive_headers` (rust-http-wasm/src/utils.rs, lines 148-165):
header values whose name matches become `"*****"`, others are cloned. -/
def mask_sensitive_headers (re : String → Bool) (headers : List (String × String)) :
    List (String × String) :=
  headers.map fun kv => if re kv.1 then (kv.1, "*****") else (kv.1, kv.2)

/-- `HashMap::get` on a header map modelled as an association list. -/
def lookupHeader (headers : List (String × String)) (key : String) : Option String :=
  (headers.find? fun kv => kv.1 == key).map fun kv => kv.2

/-- Rust `str::to_lowercase`, restricted to the per-character lowering that is
all the code relies on. -/
def lowerString (s : String) : String := ⟨s.data.map Char.toLower⟩

/-- `a` occurs at the start of `b` (character lists). -/
def charsLeading : List Char → List Char → Bool
  | [], _ => true
  | _ :: _, [] => false
  | a :: as, b :: bs => a == b && charsLeading as bs

/-- `pat` occurs as a contiguous substring of `l`: Rust `str::contains`. -/
def charsContains (pat : List Char) : List Char → Bool
  | [] => pat.isEmpty
  | c :: rest => charsLeading pat (c :: rest) || charsContains pat rest

/-- Model of `is_json` (rust-http-wasm/src/utils.rs, lines 194-196):
`content_type.to_lowercase().contains("application/json")`. -/
def is_json (content_type : String) : Bool :=
  charsContains "application/json".data (lowerString content_type).data

/-- Rust `split(',').next().unwrap_or("")`: the prefix before the first comma. -/
def firstCommaPart (s : String) : String := ⟨s.data.takeWhile fun c => c ≠ ','⟩

/-- Rust `str::trim`: drop leading and trailing whitespace. -/
def rustTrim (s : String) : String :=
  ⟨((s.data.dropWhile Char.isWhitespace).reverse.dropWhile Char.isWhitespace).reverse⟩

/-- Model of `extract_ip_from_headers` (rust-http-wasm/src/utils.rs, lines
177-182).  Note the comma-split and trim are applied to whichever of the two
headers was found, `X-Real-IP` included. -/
def extract_ip_from_headers (headers : List (String × String)) : Option String :=
  (Option.orElse (lookupHeader headers "X-Forwarded-For") fun _ =>
      lookupHeader headers "X-Real-IP").map
    fun ip => rustTrim (firstCommaPart ip)

/-- The `ip` field computed by `parse_request` (rust-http-wasm/src/utils.rs,
line 33): `extract_ip_from_headers(&headers).unwrap_or_else(|| "Unknown")`. -/
def requestIp (headers : List (String × String)) : String :=
  (extract_ip_from_headers headers).getD "Unknown"

theorem maskDataFields_eq_map (re : String → Bool) (fields : List (String × Json)) :
    maskDataFields re fields =
      fields.map fun kv =>
        if re kv.1 then (kv.1, Json.str "*****") else (kv.1, mask_sensitive_data re kv.2) := by
  induction fields with
  | nil => rfl
  | cons kv rest ih =>
    obtain ⟨k, v⟩ := kv
    simp [maskDataFields, ih]

theorem maskDataList_eq_map (re : String → Bool) (items : List Json) :
    maskDataList re items = items.map (mask_sensitive_data re) := by
  induction items with
  | nil => rfl
  | cons v rest ih => simp [maskDataList, ih]

/-! ## Config loader (treblle-wasm-plugin/src/config.rs) -/

/-- Log levels (treblle-wasm-plugin/src/logger.rs). -/
inductive LogLevel where
  | debug
  | info
  | warn
  | error
  | none
deriving Repr, DecidableEq

/-- `LogLevel::from_str` (logger.rs, lines 51-60); the `_` arm is
`LogLevel::default()`, which is `None`. -/
def LogLevel.from_str (s : String) : LogLevel :=
  let l := lowerString s
  if l = "debug" then .debug
  else if l = "info" then .info
  else if l = "warn" ∨ l = "warning" then .warn
  else if l = "error" then .error
  else if l = "none" then .none
  else .none

/-- `serde_json::Value::get` on an object (first binding of the key). -/
def Json.getKey : Json → String → Option Json
  | .obj fields, key => (fields.find? fun kv => kv.1 == key).map fun kv => kv.2
  | _, _ => Option.none

/-- `Value::as_str`. -/
def Json.asStr : Json → Option String
  | .str s => some s
  | _ => Option.none

/-- `Value::as_array`. -/
def Json.asArray : Json → Option (List Json)
  | .arr items => some items
  | _ => Option.none

/-- `Value::as_bool`. -/
def Json.asBool : Json → Option Bool
  | .bool b => some b
  | _ => Option.none

/-- `DEFAULT_TREBLLE_API_URLS` (treblle-wasm-plugin/src/constants.rs). -/
def DEFAULT_TREBLLE_API_URLS : List String :=
  ["https://rocknrolla.treblle.com", "https://punisher.treblle.com",
   "https://sicario.treblle.com"]

/-- `DEFAULT_SENSITIVE_KEYS_REGEX` (treblle-wasm-plugin/src/constants.rs). -/
def DEFAULT_SENSITIVE_KEYS_REGEX : String :=
  "(?i)(password|pwd|secret|password_confirmation|cc|card_number|ccv|ssn|credit_score)"

/-- The `Config` struct (treblle-wasm-plugin/src/config.rs, lines 17-26). -/
structure Config where
  treblle_api_urls : List String
  api_key : String
  project_id : String
  route_blacklist : List String
  sensitive_keys_regex : String
  buffer_response : Bool
  log_level : LogLevel
  root_ca_path : Option String
deriving Repr, DecidableEq

/-- `Config::from_value` (config.rs, lines 86-150). -/
def Config.from_value (value : Json) : Config where
  treblle_api_urls :=
    match (value.getKey "treblleApiUrls").bind Json.asArray with
    | some a => a.filterMap Json.asStr
    | Option.none => DEFAULT_TREBLLE_API_URLS
  api_key := ((value.getKey "apiKey").bind Json.asStr).getD ""
  project_id := ((value.getKey "projectId").bind Json.asStr).getD ""
  route_blacklist :=
    match (value.getKey "routeBlacklist").bind Json.asArray with
    | some a => a.filterMap Json.asStr
    | Option.none => []
  sensitive_keys_regex :=
    ((value.getKey "sensitiveKeysRegex").bind Json.asStr).getD DEFAULT_SENSITIVE_KEYS_REGEX
  buffer_response :=
    (((value.getKey "bufferResponse").bind fun v =>
        Option.orElse v.asBool fun _ => v.asStr.map fun s => lowerString s == "true")).getD
      false
  log_level :=
    (((value.getKey "logLevel").bind Json.asStr).map LogLevel.from_str).getD LogLevel.none
  root_ca_path := (value.getKey "rootCaPath").bind Json.asStr

/-- `Config::fallback` (config.rs, lines 153-167). -/
def Config.fallback : Config where
  treblle_api_urls := DEFAULT_TREBLLE_API_URLS
  api_key := ""
  project_id := ""
  route_blacklist := []
  sensitive_keys_regex := DEFAULT_SENSITIVE_KEYS_REGEX
  buffer_response := false
  log_level := LogLevel.none
  root_ca_path := Option.none

/-- `Config::validate` (config.rs, lines 170-180). -/
def Config.validate (c : Config) : Except String Unit :=
  if c.api_key = "" then .error "API key is required"
  else if c.project_id = "" then .error "Project ID is required"
  else .ok ()

/-- `Config::get_or_fallback` (config.rs, lines 31-59).  `hostConfig` is the
outcome of `Config::get`: `.ok v` when the host blob parsed as the JSON value
`v`, `.error` when `host_get_config` failed or the blob did not parse.  A
parsed config that fails validation is logged and replaced by the fallback; a
parse failure yields the fallback (whose own validation failure is only
logged). -/
def Config.get_or_fallback (hostConfig : Except String Json) : Config :=
  match hostConfig with
  | .ok value =>
    let config := Config.from_value value
    match config.validate with
    | .error _ => Config.fallback
    | .ok _ => config
  | .error _ => Config.fallback

/-! ## WASI HTTPS client (treblle-wasm-plugin/src/wasi_http_client.rs) -/

/-- The plugin targets 32-bit wasm, so `usize` arithmetic wraps at `2 ^ 32`;
`AtomicUsize::fetch_add` always wraps. -/
def USIZE_MOD : Nat := 2 ^ 32

/-- `WasiHttpClient::get_next_url` (wasi_http_client.rs, lines 73-77).
`counter` is `current_url_index` before the call; `fetch_add(1)` returns the
old value and stores the wrapped successor.  When `treblle_api_urls` is empty,
`counter % 0` is a remainder by zero, which panics in Rust: modelled as
`Option.none`. -/
def get_next_url (urls : List String) (counter : Nat) : Option (String × Nat) :=
  if h : urls.length = 0 then Option.none
  else
    some (urls.get ⟨counter % urls.length, Nat.mod_lt _ (Nat.pos_of_ne_zero h)⟩,
      (counter + 1) % USIZE_MOD)

/-- `m` successive sends through `get_next_url`, returning the selected URLs in
order and the final counter.  A panic (empty URL list) stops the run. -/
def runSends (urls : List String) : Nat → Nat → List String × Nat
  | counter, 0 => ([], counter)
  | counter, m + 1 =>
    match get_next_url urls counter with
    | Option.none => ([], counter)
    | some (u, c2) =>
      let rest := runSends urls c2 m
      (u :: rest.1, rest.2)

/-- The sequence of selected endpoint indices for `m` successive sends from
counter `c` with `n` endpoints: each send selects `counter % n` and stores
`(counter + 1) % USIZE_MOD`. -/
def sendIndices (n : Nat) : Nat → Nat → List Nat
  | _, 0 => []
  | c, m + 1 => c % n :: sendIndices n ((c + 1) % USIZE_MOD) m

/-- `CONNECTION_TIMEOUT` (wasi_http_client.rs, line 27), in seconds. -/
def CONNECTION_TIMEOUT : Nat := 60

/-- A pooled TLS stream (wasi_http_client.rs, lines 36-40).  `host`/`port`
are ghost labels recording which endpoint the underlying TCP stream was
opened to; `last_used` is the `Instant`, modelled as seconds. -/
structure PooledConnection where
  host : String
  port : Nat
  last_used : Nat
deriving Repr, DecidableEq

/-- The stream built from `TcpStream::connect((host, port))` plus the TLS
handshake (wasi_http_client.rs, lines 140-150): a fresh stream to exactly the
requested `(host, port)`. -/
def new_connection (now : Nat) (host : String) (port : Nat) : PooledConnection where
  host := host
  port := port
  last_used := now

/-- `WasiHttpClient::get_connection` (wasi_http_client.rs, lines 128-151).
The pool is a single `VecDeque` shared by all endpoints: expired entries are
dropped, then the front entry is returned — whatever endpoint it was opened
to — and only an empty (filtered) pool opens a fresh connection to the
requested `(host, port)`.  Returns the connection and the remaining pool. -/
def get_connection (now : Nat) (host : String) (port : Nat)
    (pool : List PooledConnection) : PooledConnection × List PooledConnection :=
  let fresh := pool.filter fun conn => now - conn.last_used < CONNECTION_TIMEOUT
  match fresh with
  | conn :: rest => ({ conn with last_used := now }, rest)
  | [] => (new_connection now host port, [])

/-! ## Handler pipeline (treblle-wasm-plugin/src/lib.rs, http_handler.rs) -/

/-- The lazily initialized guest singletons, after construction: the parsed
`Config` together with the compiled artifacts built from it.
`blacklist_match` holds the match functions of the compiled
`route_blacklist` regexes (`RouteBlacklist::new`); `sensitive_match` is the
match function of `Regex::new(sensitive_keys_regex)`, or `Option.none` when
that pattern does not compile (compilation happens on every
`mask_sensitive_data` / `mask_sensitive_headers` call and fails each time). -/
structure CompiledEnv where
  config : Config
  blacklist_match : List (String → Bool)
  sensitive_match : Option (String → Bool)

/-- `RouteBlacklist::is_blacklisted` (rust-http-wasm/src/route_blacklist.rs,
lines 40-42): true iff any compiled pattern matches the URL. -/
def is_blacklisted (env : CompiledEnv) (url : String) : Bool :=
  env.blacklist_match.any fun pattern => pattern url

/-- One request-phase interaction with the host: the outcome of every host
call `process_request` can make, plus the ambient values the embedding keeps
abstract (the serde body parser and the request timestamp).  Each `Except`
field injects either the host-observed value or a host-call failure. -/
structure RequestWorld where
  uri : Except String String
  content_type : Except String String
  method : Except String String
  header_names : Except String String
  header_values : String → Option String
  body : Except String (List Nat)
  write_body_result : Except String Unit
  protocol : Except String String
  lock_result : Except String Unit
  post_result : Except String Unit
  parse_body : List Nat → Json
  now_rfc3339 : String

/-- Rust `str::split(sep)` on a single separator character. -/
def splitOnChar (sep : Char) : List Char → List (List Char)
  | [] => [[]]
  | c :: rest =>
    let r := splitOnChar sep rest
    if c = sep then [] :: r
    else
      match r with
      | [] => [[c]]
      | h :: t => (c :: h) :: t

/-- `HttpHandler::get_headers` (treblle-wasm-plugin/src/http_handler.rs, lines
148-173): split the host-provided name list on commas, drop empty names, and
keep each name whose `host_get_header_values` call succeeds. -/
def get_headers (header_names : Except String String)
    (header_values : String → Option String) :
    Except String (List (String × String)) :=
  match header_names with
  | .error e => .error e
  | .ok names =>
    .ok ((((splitOnChar ',' names.data).map fun cs => String.mk cs).filter
        fun s => s ≠ "").filterMap
      fun name => (header_values name).map fun v => (name, v))

/-- `RequestInfo` (rust-http-wasm/src/schema.rs, lines 62-71); the timestamp
string is taken from the world. -/
structure RequestInfo where
  timestamp : String
  ip : String
  url : String
  user_agent : String
  method : String
  headers : List (String × String)
  body : Option Json
deriving Repr

/-- `parse_request` (rust-http-wasm/src/utils.rs, lines 26-49; the
treblle-wasm-plugin `utils` module is not present in the tree and this sibling
crate holds the implementation `Payload::update_request_info` calls).  The only
failure is `Regex::new` on the configured `sensitive_keys_regex`
(`TreblleError::Regex`), surfaced by `mask_sensitive_data`. -/
def parse_request (now : String) (parse : List Nat → Json)
    (sensitive_match : Option (String → Bool)) (method uri : String)
    (headers : List (String × String)) (body : List Nat) :
    Except String RequestInfo :=
  let ip := requestIp headers
  let user_agent := (lookupHeader headers "User-Agent").getD ""
  let parsed_body := parse body
  match sensitive_match with
  | Option.none => .error "Regex error"
  | some re =>
    .ok { timestamp := now, ip := ip, url := uri, user_agent := user_agent,
          method := method, headers := mask_sensitive_headers re headers,
          body := some (mask_sensitive_data re parsed_body) }

/-- `Payload::update_request_info` (treblle-wasm-plugin/src/payload.rs, lines
34-43): the `parse_request` result is unwrapped with
`.expect("Error parsing request")`, so an `Err` PANICS.  `Option.none` models
that panic. -/
def update_request_info (now : String) (parse : List Nat → Json)
    (sensitive_match : Option (String → Bool)) (method uri : String)
    (headers : List (String × String)) (body : List Nat) : Option RequestInfo :=
  match parse_request now parse sensitive_match method uri headers body with
  | .ok info => some info
  | .error _ => Option.none

/-- What one run of `process_request` did: its `Result`, and whether it reached
the `WasiHttpClient::post` call (a POST to a collector was attempted). -/
structure RequestOutcome where
  result : Except String Unit
  posted : Bool
deriving Repr

/-- `HttpHandler::send_to_treblle` (http_handler.rs, lines 234-269) composed
with `WasiHttpClient::post` (wasi_http_client.rs, lines 90-115):
`payload.to_json()` cannot fail for the values built here; the `HTTP_CLIENT`
lock can fail (`LockError`); `get_next_url` panics when the endpoint list is
empty; everything after URL selection (URL parse, connect, TLS, write) is
collapsed into `post_result`. -/
def send_to_treblle (env : CompiledEnv) (lock_result : Except String Unit)
    (post_result : Except String Unit) (counter : Nat) : Option RequestOutcome :=
  match lock_result with
  | .error e => some { result := .error e, posted := false }
  | .ok _ =>
    match get_next_url env.config.treblle_api_urls counter with
    | Option.none => Option.none
    | some _ =>
      match post_result with
      | .error e => some { result := .error e, posted := true }
      | .ok _ => some { result := .ok (), posted := true }

/-- `HttpHandler::process_request` (treblle-wasm-plugin/src/http_handler.rs,
lines 36-66).  `Option.none` models a panic escaping the function; `some`
carries the returned `Result` and whether a POST was attempted. -/
def process_request (env : CompiledEnv) (w : RequestWorld) (counter : Nat) :
    Option RequestOutcome :=
  match w.uri with
  | .error e => some { result := .error e, posted := false }
  | .ok uri =>
    if is_blacklisted env uri then some { result := .ok (), posted := false }
    else
      match w.content_type with
      | .error e => some { result := .error e, posted := false }
      | .ok content_type =>
        if is_json content_type = false then some { result := .ok (), posted := false }
        else
          match w.method with
          | .error e => some { result := .error e, posted := false }
          | .ok method =>
            match get_headers w.header_names w.header_values with
            | .error e => some { result := .error e, posted := false }
            | .ok headers =>
              match w.body with
              | .error e => some { result := .error e, posted := false }
              | .ok body =>
                match w.write_body_result with
                | .error e => some { result := .error e, posted := false }
                | .ok _ =>
                  match update_request_info w.now_rfc3339 w.parse_body
                      env.sensitive_match method uri headers body with
                  | Option.none => Option.none
                  | some _ =>
                    match w.protocol with
                    | .error e => some { result := .error e, posted := false }
                    | .ok _ =>
                      send_to_treblle env w.lock_result w.post_result counter

/-- What one invocation of the exported `handle_request` did. -/
structure InvocationResult where
  return_value : Option Int
  enable_features_calls : Nat
  posted : Bool
deriving Repr

/-- `handle_request` (treblle-wasm-plugin/src/lib.rs, lines 55-83).  On every
invocation: logger init, client init, logging, then — whenever
`CONFIG.buffer_response` is set — one `host_enable_features(2)` call (there is
no once-guard around it); then `process_request`, whose `Err` is only logged;
finally the literal `1`.  A panic escaping `process_request` traps the guest:
`return_value` is `Option.none` and no value reaches the host. -/
def handle_request (env : CompiledEnv) (w : RequestWorld) (counter : Nat) :
    InvocationResult :=
  let ef := if env.config.buffer_response then 1 else 0
  match process_request env w counter with
  | Option.none => { return_value := Option.none, enable_features_calls := ef, posted := false }
  | some outcome =>
    { return_value := some 1, enable_features_calls := ef, posted := outcome.posted }

/-- Total number of `host_enable_features` calls over a sequence of
`handle_request` invocations of one guest instance. -/
def enable_features_calls_over (env : CompiledEnv) (ws : List RequestWorld) : Nat :=
  (ws.map fun w => (handle_request env w 0).enable_features_calls).sum

/-! ## Response pipeline -/

/-- `ErrorInfo` (rust-http-wasm/src/schema.rs, lines 88-94). -/
structure ErrorInfo where
  source : String
  error_type : String
  message : String
  file : String
  line : Nat
deriving Repr, DecidableEq

/-- `HttpHandler::create_error_info` (treblle-wasm-plugin/src/http_handler.rs,
lines 223-231). -/
def create_error_info (status_code : Nat) : ErrorInfo where
  source := "response"
  error_type := "HTTP Error"
  message := "HTTP status code: " ++ toString status_code
  file := ""
  line := 0

/-- `ResponseInfo` (rust-http-wasm/src/schema.rs, lines 75-84), minus the
floating-point `load_time`, which the claims do not touch. -/
structure ResponseInfo where
  code : Nat
  size : Nat
  headers : List (String × String)
  body : Option Json
deriving Repr

/-- `parse_response` (rust-http-wasm/src/utils.rs, lines 65-83): same masking
as the request side; `size` is the raw body length; the only failure is the
sensitive-keys regex failing to compile. -/
def parse_response (parse : List Nat → Json)
    (sensitive_match : Option (String → Bool)) (status : Nat)
    (headers : List (String × String)) (body : List Nat) :
    Except String ResponseInfo :=
  match sensitive_match with
  | Option.none => .error "Regex error"
  | some re =>
    .ok { code := status, size := body.length,
          headers := mask_sensitive_headers re headers,
          body := some (mask_sensitive_data re (parse body)) }

/-- `Payload::update_response_info` (treblle-wasm-plugin/src/payload.rs, lines
46-55): the `parse_response` result is unwrapped with
`.expect("Error parsing response")`, so an `Err` PANICS (`Option.none`). -/
def update_response_info (parse : List Nat → Json)
    (sensitive_match : Option (String → Bool)) (status : Nat)
    (headers : List (String × String)) (body : List Nat) : Option ResponseInfo :=
  match parse_response parse sensitive_match status headers body with
  | .ok info => some info
  | .error _ => Option.none

/-- One response-phase interaction with the host, as consumed by
`process_response`.  `status_code` is `host_get_status_code`, which cannot
fail. -/
structure ResponseWorld where
  header_names : Except String String
  header_values : String → Option String
  body : Except String (List Nat)
  status_code : Nat
  write_body_result : Except String Unit
  protocol : Except String String
  lock_result : Except String Unit
  post_result : Except String Unit
  parse_body : List Nat → Json

/-- What one run of `process_response` did: its `Result`, whether a POST was
attempted, and the `errors` list of the payload it built (empty when the run
ended before the payload error step). -/
structure ResponseOutcome where
  result : Except String Unit
  posted : Bool
  errors : List ErrorInfo
deriving Repr

/-- `HttpHandler::process_response` (treblle-wasm-plugin/src/http_handler.rs,
lines 82-115).  When `buffer_response` is off the function returns at once.
Otherwise: headers, body, status, `write_body`, `update_response_info` (panic
on `Err`), server info (protocol), then `payload.add_error` exactly when
`is_error != 0 || status_code >= 400`, then `send_to_treblle`. -/
def process_response (env : CompiledEnv) (w : ResponseWorld) (is_error : Int)
    (counter : Nat) : Option ResponseOutcome :=
  if env.config.buffer_response = false then
    some { result := .ok (), posted := false, errors := [] }
  else
    match get_headers w.header_names w.header_values with
    | .error e => some { result := .error e, posted := false, errors := [] }
    | .ok headers =>
      match w.body with
      | .error e => some { result := .error e, posted := false, errors := [] }
      | .ok body =>
        match w.write_body_result with
        | .error e => some { result := .error e, posted := false, errors := [] }
        | .ok _ =>
          match update_response_info w.parse_body env.sensitive_match
              w.status_code headers body with
          | Option.none => Option.none
          | some _ =>
            match w.protocol with
            | .error e => some { result := .error e, posted := false, errors := [] }
            | .ok _ =>
              let errors :=
                if is_error ≠ 0 ∨ w.status_code ≥ 400 then
                  [create_error_info w.status_code]
                else []
              match send_to_treblle env w.lock_result w.post_result counter with
              | Option.none => Option.none
              | some outcome =>
                some { result := outcome.result, posted := outcome.posted,
                       errors := errors }

/-! ## Concrete fixtures shared by witnesses and counterexamples -/

/-- A sensitive-keys match function that matches nothing. -/
def noMask : String → Bool := fun _ => false

/-- A benign request world: every host call succeeds and the request is a
plain JSON `POST /users`. -/
def benignWorld : RequestWorld where
  uri := .ok "/users"
  content_type := .ok "application/json"
  method := .ok "POST"
  header_names := .ok "Content-Type,X-Forwarded-For"
  header_values := fun name =>
    if name = "Content-Type" then some "application/json"
    else if name = "X-Forwarded-For" then some "10.0.0.1, 10.0.0.2"
    else Option.none
  body := .ok []
  write_body_result := .ok ()
  protocol := .ok "HTTP/1.1"
  lock_result := .ok ()
  post_result := .ok ()
  parse_body := fun _ => Json.null
  now_rfc3339 := "2026-10-12T00:00:00+00:00"

/-- A guest environment whose config passed validation and has
`buffer_response = true`; both regex artifacts compiled. -/
def bufferedEnv : CompiledEnv where
  config :=
    { Config.fallback with api_key := "k", project_id := "p", buffer_response := true }
  blacklist_match := []
  sensitive_match := some noMask

/-! ## C4 — connection pool keying -/

/-- A pool holding one fresh connection to a different endpoint than the one
`get_connection` will be asked for. -/
def staleForeignPool : List PooledConnection :=
  [{ host := "other.example", port := 8443, last_used := 100 }]

/-- C4 counterexample: the pool is one shared queue, not keyed by
`(host, port)` — asking for `collector.example:443` returns the pooled
connection that was opened to `other.example:8443`. -/
theorem get_connection_unkeyed_counterexample :
    (get_connection 100 "collector.example" 443 staleForeignPool).1.host =
      "other.example" ∧
    (get_connection 100 "collector.example" 443 staleForeignPool).1.port = 8443 ∧
    (get_connection 100 "collector.example" 443 staleForeignPool).1.host ≠
      "collector.example" := by
  refine ⟨rfl, rfl, by decide⟩

/-- C4 amended: `get_connection` pops the front non-expired entry of the one
shared queue regardless of its endpoint, and opens a fresh connection to the
requested `(host, port)` only when the filtered queue is empty. -/
theorem get_connection_queue_behavior (now : Nat) (host : String) (port : Nat)
    (pool : List PooledConnection) :
    (∀ conn rest,
        pool.filter (fun c => now - c.last_used < CONNECTION_TIMEOUT) = conn :: rest →
        get_connection now host port pool = ({ conn with last_used := now }, rest)) ∧
    (pool.filter (fun c => now - c.last_used < CONNECTION_TIMEOUT) = [] →
      get_connection now host port pool = (new_connection now host port, []) ∧
      (new_connection now host port).host = host ∧
      (new_connection now host port).port = port) := by
  constructor
  · intro conn rest h
    unfold get_connection
    rw [h]
  · intro h
    unfold get_connection
    rw [h]
    exact ⟨rfl, rfl, rfl⟩

/-- Witness for the C4 amended theorem at concrete pools. -/
theorem get_connection_queue_behavior_witness :
    get_connection 100 "collector.example" 443 staleForeignPool =
      ({ host := "other.example", port := 8443, last_used := 100 }, []) ∧
    get_connection 0 "collector.example" 443 [] =
      (new_connection 0 "collector.example" 443, []) := by
  constructor
  · exact (get_connection_queue_behavior 100 "collector.example" 443
      staleForeignPool).1 { host := "other.example", port := 8443, last_used := 100 }
      [] (by decide)
  · exact ((get_connection_queue_behavior 0 "collector.example" 443 []).2 rfl).1

/-! ## C5 — invalid parsed config handling -/

/-- A host config blob that parses but fails validation (empty `apiKey` and
`projectId`) while carrying non-default field values. -/
def invalidParsedConfigJson : Json :=
  Json.obj [("apiKey", Json.str ""), ("projectId", Json.str ""),
    ("treblleApiUrls", Json.arr [Json.str "https://collector.example"]),
    ("bufferResponse", Json.bool true)]

/-- C5 counterexample: a parsed config that fails validation is NOT kept — its
endpoints and `buffer_response` are replaced by the fallback defaults. -/
theorem get_or_fallback_discards_parsed_counterexample :
    (Config.from_value invalidParsedConfigJson).treblle_api_urls =
      ["https://collector.example"] ∧
    (Config.from_value invalidParsedConfigJson).buffer_response = true ∧
    Config.get_or_fallback (.ok invalidParsedConfigJson) = Config.fallback ∧
    (Config.get_or_fallback (.ok invalidParsedConfigJson)).treblle_api_urls =
      DEFAULT_TREBLLE_API_URLS ∧
    (Config.get_or_fallback (.ok invalidParsedConfigJson)).buffer_response = false ∧
    Config.get_or_fallback (.ok invalidParsedConfigJson) ≠
      Config.from_value invalidParsedConfigJson := by
  refine ⟨rfl, rfl, rfl, rfl, rfl, by decide⟩

/-- C5 amended: a host-parsed config that fails validation is logged and then
REPLACED by the fallback config for the rest of the session; none of its
parsed field values stay in effect. -/
theorem get_or_fallback_replaces_invalid (v : Json) (e : String)
    (h : (Config.from_value v).validate = .error e) :
    Config.get_or_fallback (.ok v) = Config.fallback := by
  have hdef : Config.get_or_fallback (.ok v) =
      (match (Config.from_value v).validate with
        | .error _ => Config.fallback
        | .ok _ => Config.from_value v) := rfl
  rw [hdef, h]

/-- Witness for the C5 amended theorem at the concrete invalid config. -/
theorem get_or_fallback_replaces_invalid_witness :
    Config.get_or_fallback (.ok invalidParsedConfigJson) = Config.fallback :=
  get_or_fallback_replaces_invalid invalidParsedConfigJson "API key is required" rfl

/-! ## C9 — request.ip selection -/

/-- Headers carrying only `X-Real-IP`, whose value contains a comma. -/
def realIpOnlyHeaders : List (String × String) := [("X-Real-IP", "1.1.1.1,2.2.2.2")]

/-- C9 counterexample: with no `X-Forwarded-For`, the code does NOT use the
`X-Real-IP` value as is — it also takes the first comma-part and trims it. -/
theorem requestIp_realIp_comma_counterexample :
    lookupHeader realIpOnlyHeaders "X-Forwarded-For" = Option.none ∧
    lookupHeader realIpOnlyHeaders "X-Real-IP" = some "1.1.1.1,2.2.2.2" ∧
    requestIp realIpOnlyHeaders = "1.1.1.1" ∧
    requestIp realIpOnlyHeaders ≠ "1.1.1.1,2.2.2.2" := by
  refine ⟨rfl, rfl, by decide, by decide⟩

/-- C9 amended: `request.ip` is the trimmed first comma-part of
`X-Forwarded-For` when present, else the trimmed first comma-part of
`X-Real-IP` when present, else the literal `"Unknown"`. -/
theorem extract_ip_order (headers : List (String × String)) :
    (∀ v, lookupHeader headers "X-Forwarded-For" = some v →
        requestIp headers = rustTrim (firstCommaPart v)) ∧
    (lookupHeader headers "X-Forwarded-For" = Option.none →
      ∀ v, lookupHeader headers "X-Real-IP" = some v →
        requestIp headers = rustTrim (firstCommaPart v)) ∧
    (lookupHeader headers "X-Forwarded-For" = Option.none →
      lookupHeader headers "X-Real-IP" = Option.none →
        requestIp headers = "Unknown") := by
  refine ⟨?_, ?_, ?_⟩
  · intro v h
    simp [requestIp, extract_ip_from_headers, h, Option.orElse]
  · intro h v h2
    simp [requestIp, extract_ip_from_headers, h, h2, Option.orElse]
  · intro h h2
    simp [requestIp, extract_ip_from_headers, h, h2, Option.orElse]

/-- Witness for the C9 amended theorem on all three branches. -/
theorem extract_ip_order_witness :
    requestIp [("X-Forwarded-For", " 10.0.0.1, 10.0.0.2")] = "10.0.0.1" ∧
    requestIp realIpOnlyHeaders = "1.1.1.1" ∧
    requestIp [("User-Agent", "curl")] = "Unknown" := by
  refine ⟨?_, ?_, ?_⟩
  · rw [(extract_ip_order [("X-Forwarded-For", " 10.0.0.1, 10.0.0.2")]).1
      " 10.0.0.1, 10.0.0.2" rfl]
    decide
  · rw [(extract_ip_order realIpOnlyHeaders).2.1 rfl "1.1.1.1,2.2.2.2" rfl]
    decide
  · exact (extract_ip_order [("User-Agent", "curl")]).2.2 rfl rfl

/-! ## C10 — empty endpoint list reaches a panicking modulus -/

/-- A host config whose `treblleApiUrls` key is an empty JSON array and which
passes validation. -/
def emptyUrlsConfigJson : Json :=
  Json.obj [("treblleApiUrls", Json.arr []), ("apiKey", Json.str "k"),
    ("projectId", Json.str "p")]

/-- C10: an empty `treblleApiUrls` array yields an empty endpoint list (the
defaults are not substituted, and validation keeps the config), and
`get_next_url` then panics (`counter % 0`) on every call, while it is total on
every non-empty endpoint list. -/
theorem empty_endpoint_list_panics :
    (Config.from_value emptyUrlsConfigJson).treblle_api_urls = [] ∧
    Config.get_or_fallback (.ok emptyUrlsConfigJson) =
      Config.from_value emptyUrlsConfigJson ∧
    (∀ counter, get_next_url [] counter = Option.none) ∧
    (∀ urls counter, urls ≠ [] → (get_next_url urls counter).isSome = true) := by
  refine ⟨rfl, by decide, fun _ => rfl, ?_⟩
  intro urls counter h
  unfold get_next_url
  rw [dif_neg fun hl => h (List.length_eq_zero.mp hl)]
  rfl

/-- Witness for C10 at concrete inputs. -/
theorem empty_endpoint_list_panics_witness :
    get_next_url [] 5 = Option.none ∧
    (get_next_url ["https://rocknrolla.treblle.com"] 7).isSome = true :=
  ⟨empty_endpoint_list_panics.2.2.1 5,
   empty_endpoint_list_panics.2.2.2 ["https://rocknrolla.treblle.com"] 7 (by decide)⟩

/-! ## C6 — feature negotiation frequency -/

/-- Helper: each `handle_request` invocation makes the `enable_features` call
exactly when `buffer_response` is set, whatever the pipeline does. -/
theorem handle_request_enable_features (env : CompiledEnv) (w : RequestWorld)
    (counter : Nat) :
    (handle_request env w counter).enable_features_calls =
      if env.config.buffer_response then 1 else 0 := by
  unfold handle_request
  cases process_request env w counter <;> rfl

/-- C6 counterexample: with `buffer_response` set, the `enable_features` host
call is made on EVERY `handle_request` invocation — two invocations make two
calls, not one. -/
theorem enable_features_every_invocation_counterexample :
    (handle_request bufferedEnv benignWorld 0).enable_features_calls = 1 ∧
    enable_features_calls_over bufferedEnv [benignWorld, benignWorld] = 2 ∧
    enable_features_calls_over bufferedEnv [benignWorld, benignWorld] ≠ 1 := by
  refine ⟨rfl, rfl, by decide⟩

/-- C6 amended: when `buffer_response` is true, every invocation of
`handle_request` makes the feature-negotiation call once, so `n` invocations
make `n` calls (there is no once-per-instance guard). -/
theorem enable_features_per_invocation (env : CompiledEnv) (ws : List RequestWorld)
    (h : env.config.buffer_response = true) :
    enable_features_calls_over env ws = ws.length := by
  unfold enable_features_calls_over
  induction ws with
  | nil => rfl
  | cons w rest ih =>
    rw [List.map_cons, List.sum_cons, ih, handle_request_enable_features, h]
    simp [Nat.add_comm]

/-- Witness for the C6 amended theorem at two concrete invocations. -/
theorem enable_features_per_invocation_witness :
    enable_features_calls_over bufferedEnv [benignWorld, benignWorld] = 2 :=
  enable_features_per_invocation bufferedEnv [benignWorld, benignWorld] rfl

/-! ## C2 — redaction contract -/

/-- C2: for every JSON value and every compiled sensitive-keys regex, the
redactor replaces the value at every matching object key with exactly
`"*****"` without recursing into it; non-matching keys get the redaction of
their input value; arrays are mapped element-wise; scalars pass through; and
header values are masked exactly at matching header names. -/
theorem mask_sensitive_data_contract (re : String → Bool) :
    (∀ fields, mask_sensitive_data re (Json.obj fields) =
        Json.obj (fields.map fun kv =>
          if re kv.1 then (kv.1, Json.str "*****")
          else (kv.1, mask_sensitive_data re kv.2))) ∧
    (∀ items, mask_sensitive_data re (Json.arr items) =
        Json.arr (items.map (mask_sensitive_data re))) ∧
    mask_sensitive_data re Json.null = Json.null ∧
    (∀ b, mask_sensitive_data re (Json.bool b) = Json.bool b) ∧
    (∀ n, mask_sensitive_data re (Json.num n) = Json.num n) ∧
    (∀ s, mask_sensitive_data re (Json.str s) = Json.str s) ∧
    (∀ headers, mask_sensitive_headers re headers =
        headers.map fun kv => if re kv.1 then (kv.1, "*****") else kv) := by
  refine ⟨?_, ?_, ?_, ?_, ?_, ?_, fun headers => rfl⟩
  · intro fields
    rw [show mask_sensitive_data re (Json.obj fields) =
        Json.obj (maskDataFields re fields) by simp [mask_sensitive_data]]
    rw [maskDataFields_eq_map]
  · intro items
    rw [show mask_sensitive_data re (Json.arr items) =
        Json.arr (maskDataList re items) by simp [mask_sensitive_data]]
    rw [maskDataList_eq_map]
  · simp [mask_sensitive_data]
  · intro b
    simp [mask_sensitive_data]
  · intro n
    simp [mask_sensitive_data]
  · intro s
    simp [mask_sensitive_data]

/-! ## C3 — blacklist and JSON gates -/

/-- C3: when the URI matches the blacklist, or the `Content-Type` value does
not contain `application/json` case-insensitively, `process_request` returns
without attempting any POST, and `handle_request` still returns `1`. -/
theorem process_request_gates (env : CompiledEnv) (w : RequestWorld) (counter : Nat)
    (h : (∃ u, w.uri = .ok u ∧ is_blacklisted env u = true) ∨
         (∃ ct, w.content_type = .ok ct ∧ is_json ct = false)) :
    ∃ outcome, process_request env w counter = some outcome ∧
      outcome.posted = false ∧
      (handle_request env w counter).return_value = some 1 := by
  have hmain : ∃ outcome, process_request env w counter = some outcome ∧
      outcome.posted = false := by
    rcases h with ⟨u, hu, hb⟩ | ⟨ct, hct, hj⟩
    · refine ⟨{ result := .ok (), posted := false }, ?_, rfl⟩
      unfold process_request
      rw [hu]
      simp [hb]
    · cases huri : w.uri with
      | error e =>
        refine ⟨{ result := .error e, posted := false }, ?_, rfl⟩
        unfold process_request
        rw [huri]
      | ok u =>
        by_cases hb : is_blacklisted env u = true
        · refine ⟨{ result := .ok (), posted := false }, ?_, rfl⟩
          unfold process_request
          rw [huri]
          simp [hb]
        · refine ⟨{ result := .ok (), posted := false }, ?_, rfl⟩
          unfold process_request
          rw [huri]
          simp only [Bool.not_eq_true] at hb
          simp [hb, hct, hj]
  obtain ⟨outcome, hp, hpost⟩ := hmain
  refine ⟨outcome, hp, hpost, ?_⟩
  unfold handle_request
  rw [hp]

/-- A guest environment with one compiled blacklist pattern covering
`/internal/` routes. -/
def blacklistedEnv : CompiledEnv where
  config :=
    { Config.fallback with
      api_key := "k"
      project_id := "p"
      route_blacklist := ["^/internal/.*$"] }
  blacklist_match := [fun u => charsContains "/internal/".data u.data]
  sensitive_match := some noMask

/-- The benign world pointed at a blacklisted URI. -/
def internalWorld : RequestWorld := { benignWorld with uri := .ok "/internal/metrics" }

/-- Witness for C3: a blacklisted URI is skipped and the handler continues. -/
theorem process_request_gates_witness :
    ∃ outcome, process_request blacklistedEnv internalWorld 0 = some outcome ∧
      outcome.posted = false ∧
      (handle_request blacklistedEnv internalWorld 0).return_value = some 1 :=
  process_request_gates blacklistedEnv internalWorld 0
    (Or.inl ⟨"/internal/metrics", rfl, by decide⟩)

/-! ## C1 — transparency under failure -/

/-- A guest environment whose validated config carries a sensitive-keys
pattern that does not compile (`Regex::new` fails on every request). -/
def invalidRegexEnv : CompiledEnv where
  config :=
    { Config.fallback with
      api_key := "k"
      project_id := "p"
      sensitive_keys_regex := "[invalid" }
  blacklist_match := []
  sensitive_match := Option.none

/-- C1 (refuted by the code): with a validated config whose
`sensitive_keys_regex` does not compile and a benign JSON request, the
`Err` of `parse_request` reaches the `.expect` in
`Payload::update_request_info` and PANICS, so `process_request` never
returns and `handle_request` never delivers `1` to the host. -/
theorem handle_request_panics_on_invalid_regex :
    invalidRegexEnv.config.validate = .ok () ∧
    process_request invalidRegexEnv benignWorld 0 = Option.none ∧
    (handle_request invalidRegexEnv benignWorld 0).return_value = Option.none :=
  ⟨rfl, rfl, rfl⟩

/-! ## C8 — status to error-entry mapping on the response path -/

/-- C8: on a response-phase run that completes its pipeline (buffering on,
host reads fine, regex compiled, endpoints present, lock acquired), the
payload carries exactly the error entry
`{source="response", error_type="HTTP Error",
message="HTTP status code: {code}", file="", line=0}` iff `is_error ≠ 0` or
the status code is at least 400. -/
theorem process_response_error_mapping (env : CompiledEnv) (w : ResponseWorld)
    (is_error : Int) (counter : Nat)
    (hbuf : env.config.buffer_response = true)
    (hnames : ∃ ns, w.header_names = .ok ns)
    (hbody : ∃ bs, w.body = .ok bs)
    (hwrite : w.write_body_result = .ok ())
    (hre : ∃ re, env.sensitive_match = some re)
    (hproto : ∃ p, w.protocol = .ok p)
    (hurls : env.config.treblle_api_urls ≠ [])
    (hlock : w.lock_result = .ok ()) :
    ∃ outcome, process_response env w is_error counter = some outcome ∧
      (create_error_info w.status_code ∈ outcome.errors ↔
        (is_error ≠ 0 ∨ w.status_code ≥ 400)) ∧
      (outcome.errors = [create_error_info w.status_code] ↔
        (is_error ≠ 0 ∨ w.status_code ≥ 400)) ∧
      (outcome.errors = [] ↔ ¬(is_error ≠ 0 ∨ w.status_code ≥ 400)) ∧
      create_error_info w.status_code =
        { source := "response", error_type := "HTTP Error",
          message := "HTTP status code: " ++ toString w.status_code,
          file := "", line := 0 } := by
  obtain ⟨ns, hns⟩ := hnames
  obtain ⟨bs, hbs⟩ := hbody
  obtain ⟨re, hre2⟩ := hre
  obtain ⟨p, hp⟩ := hproto
  have hsend : ∃ r po, send_to_treblle env w.lock_result w.post_result counter =
      some { result := r, posted := po } := by
    unfold send_to_treblle
    rw [hlock]
    unfold get_next_url
    rw [dif_neg fun hl => hurls (List.length_eq_zero.mp hl)]
    cases hpr : w.post_result with
    | error e => exact ⟨.error e, true, rfl⟩
    | ok u => exact ⟨.ok (), true, rfl⟩
  obtain ⟨r, po, hsend⟩ := hsend
  have hgh : get_headers w.header_names w.header_values =
      .ok ((((splitOnChar ',' ns.data).map fun cs => String.mk cs).filter
          fun s => s ≠ "").filterMap
        fun name => (w.header_values name).map fun v => (name, v)) := by
    unfold get_headers
    rw [hns]
  have hupd : ∀ headers : List (String × String),
      update_response_info w.parse_body env.sensitive_match w.status_code headers bs =
        some { code := w.status_code, size := bs.length,
               headers := mask_sensitive_headers re headers,
               body := some (mask_sensitive_data re (w.parse_body bs)) } := by
    intro headers
    unfold update_response_info parse_response
    rw [hre2]
  have hrun : process_response env w is_error counter =
      some { result := r, posted := po,
             errors := if is_error ≠ 0 ∨ w.status_code ≥ 400 then
               [create_error_info w.status_code] else [] } := by
    unfold process_response
    simp only [hbuf, Bool.true_eq_false, if_false, hgh, hbs, hwrite, hupd, hp, hsend]
  refine ⟨_, hrun, ?_, ?_, ?_, rfl⟩ <;> by_cases hcond : is_error ≠ 0 ∨ w.status_code ≥ 400 <;>
    simp [hcond]

/-- A benign response world with status 500, all host calls succeeding. -/
def respWorld500 : ResponseWorld where
  header_names := .ok "Content-Type"
  header_values := fun name =>
    if name = "Content-Type" then some "application/json" else Option.none
  body := .ok []
  status_code := 500
  write_body_result := .ok ()
  protocol := .ok "HTTP/1.1"
  lock_result := .ok ()
  post_result := .ok ()
  parse_body := fun _ => Json.null

/-- Witness for C8 at a concrete 500 response with `is_error = 0`. -/
theorem process_response_error_mapping_witness :
    ∃ outcome, process_response bufferedEnv respWorld500 0 0 = some outcome ∧
      (create_error_info respWorld500.status_code ∈ outcome.errors ↔
        ((0 : Int) ≠ 0 ∨ respWorld500.status_code ≥ 400)) ∧
      (outcome.errors = [create_error_info respWorld500.status_code] ↔
        ((0 : Int) ≠ 0 ∨ respWorld500.status_code ≥ 400)) ∧
      (outcome.errors = [] ↔ ¬((0 : Int) ≠ 0 ∨ respWorld500.status_code ≥ 400)) ∧
      create_error_info respWorld500.status_code =
        { source := "response", error_type := "HTTP Error",
          message := "HTTP status code: " ++ toString respWorld500.status_code,
          file := "", line := 0 } :=
  process_response_error_mapping bufferedEnv respWorld500 0 0 rfl ⟨"Content-Type", rfl⟩
    ⟨[], rfl⟩ rfl ⟨noMask, rfl⟩ ⟨"HTTP/1.1", rfl⟩ (by decide) rfl

/-! ## C7 — round-robin endpoint selection -/

/-- Within one window of `n` consecutive values, `(a + i) % n` hits `j` for
exactly one offset `i`, namely `(n + j - a) % n`. -/
theorem add_mod_eq_iff (n a j i : Nat) (ha : a < n) (hj : j < n) (hi : i < n) :
    (a + i) % n = j ↔ i = (n + j - a) % n := by
  have hmod1 : (a + i) % n = if a + i < n then a + i else a + i - n := by
    by_cases hlt : a + i < n
    · rw [if_pos hlt, Nat.mod_eq_of_lt hlt]
    · rw [if_neg hlt, Nat.mod_eq_sub_mod (by omega), Nat.mod_eq_of_lt (by omega)]
  have hmod2 : (n + j - a) % n = if a ≤ j then j - a else n + j - a := by
    by_cases hle : a ≤ j
    · rw [if_pos hle, show n + j - a = n + (j - a) by omega, Nat.add_mod_left,
        Nat.mod_eq_of_lt (by omega)]
    · rw [if_neg hle, Nat.mod_eq_of_lt (by omega)]
  rw [hmod1, hmod2]
  split <;> split <;> omega

/-- Each endpoint index is selected exactly once over `n` consecutive counter
values. -/
theorem countP_window (n c j : Nat) (hn : 0 < n) (hj : j < n) :
    ((List.range n).countP fun i => (c + i) % n == j) = 1 := by
  have ha : c % n < n := Nat.mod_lt _ hn
  have hstep : ∀ i : Nat, (c + i) % n = (c % n + i) % n := by
    intro i
    conv_lhs => rw [← Nat.div_add_mod c n]
    rw [show n * (c / n) + c % n + i = c % n + i + c / n * n by ring,
      Nat.add_mul_mod_self_right]
  have ht : (n + j - c % n) % n < n := Nat.mod_lt _ hn
  calc ((List.range n).countP fun i => (c + i) % n == j)
      = ((List.range n).countP fun i => i == (n + j - c % n) % n) := by
        refine List.countP_congr ?_
        intro i hi
        rw [List.mem_range] at hi
        simp only [beq_iff_eq]
        rw [hstep i]
        exact add_mod_eq_iff n (c % n) j i ha hj hi
    _ = (List.range n).count ((n + j - c % n) % n) := (List.count_eq_countP _ _).symm
    _ = 1 := List.count_eq_one_of_mem (List.nodup_range n) (List.mem_range.mpr ht)

/-- Each endpoint index is selected exactly `k` times over `k * n` consecutive
counter values. -/
theorem countP_windows (n c j : Nat) (hn : 0 < n) (hj : j < n) (k : Nat) :
    ((List.range (k * n)).countP fun i => (c + i) % n == j) = k := by
  induction k with
  | zero => simp
  | succ k ih =>
    rw [show (k + 1) * n = k * n + n by ring, List.range_add, List.countP_append, ih]
    have hshift : ((List.range n).map fun x => k * n + x).countP
        (fun i => (c + i) % n == j) = ((List.range n).countP fun i => (c + i) % n == j) := by
      rw [List.countP_map]
      refine List.countP_congr ?_
      intro i hi
      have harith : c + (k * n + i) = c + i + k * n := by ring
      simp only [Function.comp, beq_iff_eq, harith, Nat.add_mul_mod_self_right]
    rw [hshift, countP_window n c j hn hj]

/-- As long as the counter does not wrap, the selected index sequence is the
residues of consecutive counter values. -/
theorem sendIndices_no_wrap (n : Nat) :
    ∀ m c, c + m ≤ USIZE_MOD →
      sendIndices n c m = (List.range m).map fun i => (c + i) % n := by
  intro m
  induction m with
  | zero => intro c _; rfl
  | succ m ih =>
    intro c h
    rw [sendIndices]
    by_cases hc : c + 1 < USIZE_MOD
    · rw [Nat.mod_eq_of_lt hc, ih (c + 1) (by omega), List.range_succ_eq_map,
        List.map_cons, List.map_map]
      have hfun : (fun i => (c + 1 + i) % n) = (fun i => (c + i) % n) ∘ Nat.succ := by
        funext i
        simp only [Function.comp]
        congr 1
        omega
      rw [hfun, Nat.add_zero]
    · have hm : m = 0 := by omega
      subst hm
      show c % n :: sendIndices n ((c + 1) % USIZE_MOD) 0 = [(c + 0) % n]
      rw [Nat.add_zero]
      rfl

/-- The URLs actually selected by `m` successive sends are the indexed reads
of the endpoint list at the selected index sequence. -/
theorem runSends_fst (urls : List String) (h : urls.length ≠ 0) :
    ∀ m c, (runSends urls c m).1 =
      (sendIndices urls.length c m).map fun i => urls.getD i "" := by
  intro m
  induction m with
  | zero => intro c; rfl
  | succ m ih =>
    intro c
    have hgn : get_next_url urls c =
        some (urls.get ⟨c % urls.length, Nat.mod_lt _ (Nat.pos_of_ne_zero h)⟩,
          (c + 1) % USIZE_MOD) := by
      unfold get_next_url
      rw [dif_neg h]
    rw [runSends, sendIndices]
    simp only [hgn, List.map_cons]
    rw [← ih ((c + 1) % USIZE_MOD)]
    have hget : urls.getD (c % urls.length) "" =
        urls.get ⟨c % urls.length, Nat.mod_lt _ (Nat.pos_of_ne_zero h)⟩ := by
      rw [List.getD_eq_get?, List.get?_eq_get (Nat.mod_lt _ (Nat.pos_of_ne_zero h))]
      rfl
    rw [hget]

/-- C7 counterexample: round-robin fairness as stated fails on a window of
`k * N` sends that crosses the counter wrap.  With three endpoints and the
counter at `USIZE_MOD - 1`, one window of `3` sends selects endpoint 0 twice
and endpoint 2 never. -/
theorem round_robin_wrap_counterexample :
    (runSends ["A", "B", "C"] (USIZE_MOD - 1) 3).1 = ["A", "A", "B"] ∧
    (runSends ["A", "B", "C"] (USIZE_MOD - 1) 3).1.count "C" = 0 ∧
    (runSends ["A", "B", "C"] (USIZE_MOD - 1) 3).1.count "A" = 2 := by
  refine ⟨by decide, by decide, by decide⟩

/-- C7 amended: each `get_next_url` call picks `endpoints[counter mod N]` and
advances the wrapped counter; and over any window of `k * N` successive sends
during which the counter does not wrap, every endpoint index `j < N` is
selected exactly `k` times. -/
theorem round_robin_no_wrap (urls : List String) (c k j : Nat)
    (hN : urls.length ≠ 0) (hj : j < urls.length)
    (hc : c + k * urls.length ≤ USIZE_MOD) :
    get_next_url urls c =
      some (urls.getD (c % urls.length) "", (c + 1) % USIZE_MOD) ∧
    (runSends urls c (k * urls.length)).1 =
      (sendIndices urls.length c (k * urls.length)).map (fun i => urls.getD i "") ∧
    (sendIndices urls.length c (k * urls.length)).count j = k := by
  refine ⟨?_, runSends_fst urls hN _ c, ?_⟩
  · unfold get_next_url
    rw [dif_neg hN]
    rw [List.getD_eq_get?, List.get?_eq_get (Nat.mod_lt _ (Nat.pos_of_ne_zero hN))]
    rfl
  · rw [sendIndices_no_wrap urls.length _ c hc, List.count_eq_countP, List.countP_map]
    have hcw := countP_windows urls.length c j (Nat.pos_of_ne_zero hN) hj k
    simpa [Function.comp] using hcw

/-- Witness for the C7 amended theorem: three endpoints, six sends from
counter 0 select each endpoint exactly twice, in rotation. -/
theorem round_robin_no_wrap_witness :
    (runSends ["A", "B", "C"] 0 6).1 = ["A", "B", "C", "A", "B", "C"] ∧
    (sendIndices 3 0 6).count 1 = 2 := by
  have h := round_robin_no_wrap ["A", "B", "C"] 0 2 1 (by decide) (by decide) (by decide)
  refine ⟨?_, h.2.2⟩
  rw [show (runSends ["A", "B", "C"] 0 6).1 =
      (runSends ["A", "B", "C"] 0 (2 * ["A", "B", "C"].length)).1 from rfl, h.2.1]
  decide

end Treblle
